import Mathlib

/-!
Verification of the stock-ticker widget (`src/stock-ticker-overlay.tsx` and
the configuration schema file).

The component's logic is shallowly embedded here:
* JavaScript numbers are modelled as rationals (`ℚ`); the claims under
  scrutiny are exact closed-form identities, so `ℚ` is the faithful carrier.
* Calendar dates and epoch timestamps are modelled as integer day numbers
  (`ℤ`); the ISO serialization `YYYY-MM-DD` is injective on day numbers, so
  it is modelled as the identity.
* The component's mutable slots (`closingPrices`, `closingDates`,
  `latestClose`, `error`, `loading`, lines 39-43 of the source) become the
  record `CompState`.
* The two remote lookups become a `Net` value: one outcome per request
  (transport error, non-success HTTP status, or a parsed body).
* `fetchData` (source lines 71-143) becomes a total function from symbol,
  active lookback window, current day and `Net` to `CompState`; the `try`
  body is `fetchBody`, returning `Except` exactly where the source throws.
-/

namespace StockTicker

/-- The graph's fixed logical canvas width (source line 146). -/
def graphBaseWidth : ℚ := 200

/-- The graph's fixed logical canvas height (source line 147). -/
def graphBaseHeight : ℚ := 140

/-- Reserved vertical margin at the bottom of the canvas (source line 148). -/
def graphBaselineInset : ℚ := 20

/-- Top padding of the plotting band (source line 149). -/
def graphTopPadding : ℚ := 6

/-- `graphBaseHeight - graphBaselineInset - graphTopPadding`
(computed identically inside each geometry function, lines 156-157). -/
def graphInnerHeight : ℚ := graphBaseHeight - graphBaselineInset - graphTopPadding

/-- `Math.min(...prices)` over a non-empty list; the source only calls it
under a `length ≥ 2` guard, the `[]` value is arbitrary. -/
def minPrice : List ℚ → ℚ
  | [] => 0
  | p :: ps => ps.foldl min p

/-- `Math.max(...prices)` over a non-empty list. -/
def maxPrice : List ℚ → ℚ
  | [] => 0
  | p :: ps => ps.foldl max p

/-- `maxPrice - minPrice || 1` (source line 155): JavaScript `||` replaces a
zero range by `1`. -/
def priceRange (prices : List ℚ) : ℚ :=
  if maxPrice prices - minPrice prices = 0 then 1
  else maxPrice prices - minPrice prices

/-- `graphBaseWidth / (prices.length - 1)` (source line 158). -/
def stepX (n : ℕ) : ℚ := graphBaseWidth / ((n : ℚ) - 1)

/-- Vertical position of a price (source lines 162-165). -/
def chartY (prices : List ℚ) (price : ℚ) : ℚ :=
  graphTopPadding + graphInnerHeight -
    ((price - minPrice prices) / priceRange prices) * graphInnerHeight

/-- The `(x, y)` projection of the series, `prices.map((price, i) => ...)`
(source lines 160-167). -/
def chartPoints (prices : List ℚ) : List (ℚ × ℚ) :=
  (List.range prices.length).map
    (fun (i : ℕ) => ((i : ℚ) * stepX prices.length, chartY prices (prices.getD i 0)))

/-- One discrete hover point (source lines 224-236). -/
structure GraphPoint where
  x : ℚ
  y : ℚ
  price : ℚ
  date : ℤ
deriving DecidableEq

/-- `getGraphPoints` (source lines 215-237): empty below two points,
otherwise the projected points paired with price and date
(`dates[i] || ""`, the missing-date default modelled as day `0`). -/
def getGraphPoints (prices : List ℚ) (dates : List ℤ) : List GraphPoint :=
  if prices.length < 2 then []
  else
    (List.range prices.length).map
      (fun (i : ℕ) =>
        { x := (i : ℚ) * stepX prices.length
          y := chartY prices (prices.getD i 0)
          price := prices.getD i 0
          date := dates.getD i 0 })

/-- SVG path commands, one constructor per command the source emits. -/
inductive PathCmd where
  | moveTo (x y : ℚ)
  | curveTo (c1x c1y c2x c2y x y : ℚ)
  | lineTo (x y : ℚ)
  | closePath
deriving DecidableEq

/-- One cubic segment per consecutive pair of points, both control points at
the horizontal midpoint `cpX = (p0.x + p1.x)/2` at the endpoints' own
heights (source lines 170-177 and 202-209). -/
def segCmds (pts : List (ℚ × ℚ)) : List PathCmd :=
  (pts.zip pts.tail).map
    (fun pq =>
      PathCmd.curveTo ((pq.1.1 + pq.2.1) / 2) pq.1.2
        ((pq.1.1 + pq.2.1) / 2) pq.2.2 pq.2.1 pq.2.2)

/-- Commands of `generateSvgPath` (source lines 150-180): a move-to at the
first projected point followed by the cubic segments. -/
def linePathCmds (prices : List ℚ) : List PathCmd :=
  if prices.length < 2 then []
  else
    PathCmd.moveTo ((chartPoints prices).headD (0, 0)).1
        ((chartPoints prices).headD (0, 0)).2 ::
      segCmds (chartPoints prices)

/-- Commands of `generateSvgAreaPath` (source lines 182-213): move-to at the
first point's x on the canvas baseline, line up to the first point, the same
cubic segments, a line down to the baseline under the last point, and a
close-path. -/
def areaPathCmds (prices : List ℚ) : List PathCmd :=
  if prices.length < 2 then []
  else
    PathCmd.moveTo ((chartPoints prices).headD (0, 0)).1 graphBaseHeight ::
      PathCmd.lineTo ((chartPoints prices).headD (0, 0)).1
        ((chartPoints prices).headD (0, 0)).2 ::
      (segCmds (chartPoints prices) ++
        [PathCmd.lineTo ((chartPoints prices).getLastD (0, 0)).1 graphBaseHeight,
         PathCmd.closePath])

/-- Serialization of one command, exactly the fragments the source
concatenates (`M ${x},${y}`, ` C ${c1x},${c1y} ${c2x},${c2y} ${x},${y}`,
`L ${x},${y}`, `Z`). -/
def renderCmd : PathCmd → String
  | .moveTo x y => "M " ++ toString x ++ "," ++ toString y
  | .curveTo c1x c1y c2x c2y x y =>
      "C " ++ toString c1x ++ "," ++ toString c1y ++ " " ++
        toString c2x ++ "," ++ toString c2y ++ " " ++
        toString x ++ "," ++ toString y
  | .lineTo x y => "L " ++ toString x ++ "," ++ toString y
  | .closePath => "Z"

/-- Space-separated serialization of a command list; this reproduces the
source's incremental `pathD += ...` string building. -/
def renderPath : List PathCmd → String
  | [] => ""
  | [c] => renderCmd c
  | c :: c2 :: cs => renderCmd c ++ " " ++ renderPath (c2 :: cs)

/-- `generateSvgPath` (source lines 150-180), as the serialized string. -/
def generateSvgPath (prices : List ℚ) : String :=
  renderPath (linePathCmds prices)

/-- `generateSvgAreaPath` (source lines 182-213). -/
def generateSvgAreaPath (prices : List ℚ) : String :=
  renderPath (areaPathCmds prices)

/-- `Math.round` of JavaScript: round half toward positive infinity. -/
def jsRound (q : ℚ) : ℤ := ⌊q + 1 / 2⌋

/-- The `onMouseMove` handler's index computation (source lines 422-431):
`scaledX = (x / rect.width) * graphBaseWidth`,
`step = graphBaseWidth / (points.length - 1)`, then
`Math.max(0, Math.min(points.length - 1, Math.round(scaledX / step)))`. -/
def hoverRawIndex (n : ℕ) (rectWidth x : ℚ) : ℕ :=
  (max 0 (min ((n : ℤ) - 1)
    (jsRound (x / rectWidth * graphBaseWidth /
      (graphBaseWidth / ((n : ℚ) - 1)))))).toNat

/-- The `onMouseMove` handler's point lookup (source lines 421-441): returns
`none` exactly where the handler returns early (no points, or no point at
the computed index), otherwise the index and the `PricePoint` read there. -/
def onMouseMoveIndex (prices : List ℚ) (dates : List ℤ)
    (rectWidth x : ℚ) : Option (ℕ × GraphPoint) :=
  let points := getGraphPoints prices dates
  if points.length = 0 then none
  else
    match points[hoverRawIndex points.length rectWidth x]? with
    | some pt => some (hoverRawIndex points.length rectWidth x, pt)
    | none => none

/-- `rangeChange` (source lines 261-265): last close minus first close when
the series has more than one point, otherwise `null`. -/
def rangeChange (prices : List ℚ) : Option ℚ :=
  if 1 < prices.length then some (prices.getLastD 0 - prices.headD 0)
  else none

/-- `changeColor` (source lines 266-267): green when `rangeChange` is
non-null and non-negative, red otherwise. -/
def changeColor (prices : List ℚ) : String :=
  match rangeChange prices with
  | some r => if 0 ≤ r then "#6CD28D" else "#ef4444"
  | none => "#ef4444"

/-- `changePercent` (source lines 268-271): `rangeChange / (first || 1) * 100`
when the series has more than one point, otherwise `null`. -/
def changePercent (prices : List ℚ) : Option ℚ :=
  match rangeChange prices with
  | some r =>
      if 1 < prices.length then
        some (r / (if prices.headD 0 = 0 then 1 else prices.headD 0) * 100)
      else none
  | none => none

/-- The up/down indicator polygon (source line 385), rendered only when
`rangeChange` is non-null. -/
def indicatorPoints (r : ℚ) : String :=
  if 0 ≤ r then "5,0 10,10 0,10" else "0,0 10,0 5,10"

/-- `graphColor` (source line 278): `stockgraphcolor || changeColor`, the
empty string being the falsy case. -/
def graphColor (stockgraphcolor : String) (prices : List ℚ) : String :=
  if stockgraphcolor = "" then changeColor prices else stockgraphcolor

/-- Outcome of one remote lookup: a transport failure, a response whose
`ok` flag is false (non-success HTTP status), or a parsed body. -/
inductive NetOutcome (α : Type) where
  | transportError
  | httpError (status : ℕ)
  | ok (body : α)
deriving DecidableEq

/-- The ticker-details body.  The source awaits `detailsResponse.json()` on
line 95 and discards the value; the branding logo url it may carry is kept
here so that its being discarded is visible. -/
structure TickerDetails where
  logoUrl : Option String
deriving DecidableEq

/-- One daily aggregate bar: closing price `c` and timestamp `t`
(modelled as a day number). -/
structure AggBar where
  c : ℚ
  t : ℤ
deriving DecidableEq

/-- The two remote lookups one `fetchData` invocation performs. -/
structure Net where
  details : NetOutcome TickerDetails
  aggs : NetOutcome (List AggBar)
deriving DecidableEq

/-- The component's data slots (`useState` initial values, lines 39-43). -/
structure CompState where
  closingPrices : List ℚ
  closingDates : List ℤ
  latestClose : Option ℚ
  error : Option String
  loading : Bool
deriving DecidableEq

/-- The slots' initial values (source lines 39-43). -/
def initialState : CompState :=
  { closingPrices := []
    closingDates := []
    latestClose := none
    error := none
    loading := false }

/-- The fallback demo series used when the lookback window is not 4 weeks
(source lines 56-58). -/
def fallbackClosingPrices2 : List ℚ :=
  [141, 132, 147, 159, 163, 154, 120, 175, 160.02, 185.06]

/-- The fallback demo series used when the lookback window is 4 weeks
(source lines 59-62). -/
def fallbackClosingPrices4 : List ℚ :=
  [120, 123, 127, 124, 130, 134, 132, 138, 136, 140, 143, 141, 145, 149, 147,
   151, 154, 152, 156, 160, 158, 162, 165, 163, 168, 171, 169, 173.2]

/-- `activeWeeks === 4 ? fallbackClosingPrices4 : fallbackClosingPrices2`
(source lines 78-79 and 129-130). -/
def fallbackPricesFor (activeWeeks : ℤ) : List ℚ :=
  if activeWeeks = 4 then fallbackClosingPrices4 else fallbackClosingPrices2

/-- `buildFallbackDates` (source lines 541-550): the `length` consecutive
days ending today. -/
def buildFallbackDates (today : ℤ) (length : ℕ) : List ℤ :=
  (List.range length).map (fun i => today - ((length - 1 - i : ℕ) : ℤ))

/-- The state written by the sentinel branch of `fetchData` (source lines
77-86): the demo series for the active window, its synthetic dates, its last
element as latest close; `error` stays at the `null` set on line 74 and
`loading` ends false. -/
def sentinelState (activeWeeks today : ℤ) : CompState :=
  { closingPrices := fallbackPricesFor activeWeeks
    closingDates := buildFallbackDates today (fallbackPricesFor activeWeeks).length
    latestClose := some ((fallbackPricesFor activeWeeks).getLastD 0)
    error := none
    loading := false }

/-- The state written by the `catch` branch of `fetchData` (source lines
125-139): the same demo series, dates and latest close; `setError(null)` on
line 136 resets the error slot, `finally` clears `loading`. -/
def fallbackState (activeWeeks today : ℤ) : CompState :=
  { closingPrices := fallbackPricesFor activeWeeks
    closingDates := buildFallbackDates today (fallbackPricesFor activeWeeks).length
    latestClose := some ((fallbackPricesFor activeWeeks).getLastD 0)
    error := none
    loading := false }

/-- The state written by the success branch (source lines 111-121). -/
def successState (bars : List AggBar) : CompState :=
  { closingPrices := bars.map (fun b => b.c)
    closingDates := bars.map (fun b => b.t)
    latestClose := some ((bars.map (fun b => b.c)).getLastD 0)
    error := none
    loading := false }

/-- The `try` body of `fetchData` (source lines 88-124): throws on a
non-ok details response, a non-ok aggregates response, or an empty
aggregates result list (`aggsData.results?.length` falsy); otherwise yields
the bars.  A transport failure of either `fetch` rejects the awaited
promise, which the same `catch` receives. -/
def fetchBody (net : Net) : Except String (List AggBar) :=
  match net.details with
  | .transportError => .error "network error"
  | .httpError s => .error ("HTTP error! Status: " ++ toString s)
  | .ok _ =>
      match net.aggs with
      | .transportError => .error "network error"
      | .httpError s => .error ("HTTP error! Status: " ++ toString s)
      | .ok bars =>
          if bars.length ≠ 0 then .ok bars
          else .error "No results found in Polygon daily aggregates."

/-- `fetchData` (source lines 71-143) as a total state transformer: the
sentinel symbol takes the demo branch without touching the network, any
exception of the body is caught and converted into the fallback state. -/
def fetchData (symbol : String) (activeWeeks today : ℤ) (net : Net) : CompState :=
  if symbol = "VNI" then sentinelState activeWeeks today
  else
    match fetchBody net with
    | .ok bars => successState bars
    | .error _ => fallbackState activeWeeks today

/-- True on every `Net` the spec's failure taxonomy covers: transport error
or non-success status on either lookup, or an aggregate body with zero data
points. -/
def fetchFailed (net : Net) : Bool :=
  (match net.details with | .ok _ => false | _ => true) ||
  (match net.aggs with | .ok _ => false | _ => true) ||
  (match net.aggs with | .ok bars => bars.isEmpty | _ => false)

/-- The rendered widget contains no logo element: the destructuring on
source lines 25-29 takes only `symbol`, `weeks`, `stockgraphcolor`, the
`logo` attribute is never read, no state slot holds a logo or company name,
and the JSX (lines 336-539) renders no image element. -/
def renderedLogo (_st : CompState) : Option String := none

/-- Logo resolution as actually performed for a fetch: the `logo` attribute
is unused (lines 25-29) and the details body is discarded (line 95), so no
override, metadata logo or data-url re-encoding ever reaches the output. -/
def resolvedLogo (_logoOverride : String) (_net : Net) : Option String := none

/-- Each resolving fetch applies its full result unconditionally: the
effect (lines 71-143) installs no cleanup and checks no generation tag, so
a resolution simply overwrites the data slots. -/
def applyResult (_st : CompState) (r : CompState) : CompState := r

/-- Final component state after a sequence of fetch resolutions, in
resolution order. -/
def resolveAll (init : CompState) (results : List CompState) : CompState :=
  results.foldl applyResult init

/-- `baseWeeks = weeks || 4` (source line 63). -/
def baseWeeks (weeks : ℤ) : ℤ := if weeks = 0 then 4 else weeks

/-- `toggleWeeks = baseWeeks === 2 ? 4 : 2` (source line 64). -/
def toggleWeeks (weeks : ℤ) : ℤ := if baseWeeks weeks = 2 then 4 else 2

/-- The chart's `onClick` handler (source lines 442-446). -/
def clickWeeks (weeks : ℤ) (current : ℤ) : ℤ :=
  if current = baseWeeks weeks then toggleWeeks weeks else baseWeeks weeks

/-- The first day of the aggregates date range (source lines 98-102):
`today - activeWeeks * 7` calendar days, unclamped. -/
def startDay (today activeWeeks : ℤ) : ℤ := today - activeWeeks * 7

/-- The number of calendar days the requested range spans. -/
def lookbackDaysUsed (today activeWeeks : ℤ) : ℤ :=
  today - startDay today activeWeeks

/-! ### Helper lemmas -/

lemma foldl_min_le_init (l : List ℚ) (a : ℚ) : l.foldl min a ≤ a := by
  induction l generalizing a with
  | nil => exact le_refl a
  | cons b t ih => exact le_trans (ih (min a b)) (min_le_left a b)

lemma foldl_min_le_mem (l : List ℚ) (a : ℚ) (x : ℚ) (hx : x ∈ l) :
    l.foldl min a ≤ x := by
  induction l generalizing a with
  | nil => cases hx
  | cons b t ih =>
    rcases List.mem_cons.mp hx with h | h
    · subst h
      exact le_trans (foldl_min_le_init t (min a x)) (min_le_right a x)
    · exact ih (min a b) h

lemma foldl_min_mem (l : List ℚ) (a : ℚ) :
    l.foldl min a = a ∨ l.foldl min a ∈ l := by
  induction l generalizing a with
  | nil => exact Or.inl rfl
  | cons b t ih =>
    rcases ih (min a b) with h | h
    · rw [List.foldl_cons, h]
      rcases min_choice a b with h2 | h2
      · exact Or.inl h2
      · exact Or.inr (by rw [h2]; exact List.mem_cons_self b t)
    · exact Or.inr (List.mem_cons_of_mem b h)

lemma init_le_foldl_max (l : List ℚ) (a : ℚ) : a ≤ l.foldl max a := by
  induction l generalizing a with
  | nil => exact le_refl a
  | cons b t ih => exact le_trans (le_max_left a b) (ih (max a b))

lemma mem_le_foldl_max (l : List ℚ) (a : ℚ) (x : ℚ) (hx : x ∈ l) :
    x ≤ l.foldl max a := by
  induction l generalizing a with
  | nil => cases hx
  | cons b t ih =>
    rcases List.mem_cons.mp hx with h | h
    · subst h
      exact le_trans (le_max_right a x) (init_le_foldl_max t (max a x))
    · exact ih (max a b) h

lemma foldl_max_mem (l : List ℚ) (a : ℚ) :
    l.foldl max a = a ∨ l.foldl max a ∈ l := by
  induction l generalizing a with
  | nil => exact Or.inl rfl
  | cons b t ih =>
    rcases ih (max a b) with h | h
    · rw [List.foldl_cons, h]
      rcases max_choice a b with h2 | h2
      · exact Or.inl h2
      · exact Or.inr (by rw [h2]; exact List.mem_cons_self b t)
    · exact Or.inr (List.mem_cons_of_mem b h)

lemma minPrice_mem (prices : List ℚ) (h : prices ≠ []) : minPrice prices ∈ prices := by
  match prices with
  | [] => exact absurd rfl h
  | p :: ps =>
    rcases foldl_min_mem ps p with h2 | h2
    · rw [minPrice, h2]; exact List.mem_cons_self p ps
    · exact List.mem_cons_of_mem p h2

lemma maxPrice_mem (prices : List ℚ) (h : prices ≠ []) : maxPrice prices ∈ prices := by
  match prices with
  | [] => exact absurd rfl h
  | p :: ps =>
    rcases foldl_max_mem ps p with h2 | h2
    · rw [maxPrice, h2]; exact List.mem_cons_self p ps
    · exact List.mem_cons_of_mem p h2

lemma minPrice_le (prices : List ℚ) (x : ℚ) (hx : x ∈ prices) :
    minPrice prices ≤ x := by
  match prices with
  | p :: ps =>
    rcases List.mem_cons.mp hx with h | h
    · subst h; exact foldl_min_le_init ps x
    · exact foldl_min_le_mem ps p x h

lemma le_maxPrice (prices : List ℚ) (x : ℚ) (hx : x ∈ prices) :
    x ≤ maxPrice prices := by
  match prices with
  | p :: ps =>
    rcases List.mem_cons.mp hx with h | h
    · subst h; exact init_le_foldl_max ps x
    · exact mem_le_foldl_max ps p x h

lemma chartPoints_length (prices : List ℚ) :
    (chartPoints prices).length = prices.length := by
  simp [chartPoints]

/-! ### Claim C1: failure falls back without propagating -/

/-- Property of claim C1 at one invocation: the resulting state equals the
fixed demonstration state for the active lookback window, the error-state
slot ends empty, and the failure was caught inside the fetch (the body
produced an exception value that the total `fetchData` converted). -/
def C1Prop (symbol : String) (activeWeeks today : ℤ) (net : Net) : Prop :=
  fetchData symbol activeWeeks today net = fallbackState activeWeeks today ∧
  (fetchData symbol activeWeeks today net).error = none ∧
  ∃ e, fetchBody net = Except.error e

/-- Claim C1: for every fetch invocation whose symbol is not the sentinel
"VNI", if the operation fails (transport error, non-success HTTP status on
either lookup, or an aggregate response with zero data points), the
resulting state equals the fixed demonstration series for the active
lookback window, no error is propagated or thrown, and the error-state slot
is empty after the fallback. -/
theorem fetch_failure_falls_back (symbol : String) (activeWeeks today : ℤ)
    (net : Net) (hs : symbol ≠ "VNI") (hf : fetchFailed net = true) :
    C1Prop symbol activeWeeks today net := by
  obtain ⟨d, a⟩ := net
  have hbody : ∃ e, fetchBody ⟨d, a⟩ = Except.error e := by
    cases d with
    | transportError => exact ⟨_, rfl⟩
    | httpError s => exact ⟨_, rfl⟩
    | ok body =>
      cases a with
      | transportError => exact ⟨_, rfl⟩
      | httpError s => exact ⟨_, rfl⟩
      | ok bars =>
        simp only [fetchFailed, Bool.or_eq_true] at hf
        rcases hf with (hf | hf) | hf
        · simp at hf
        · simp at hf
        · simp only [List.isEmpty_iff] at hf
          subst hf
          exact ⟨_, rfl⟩
  obtain ⟨e, he⟩ := hbody
  refine ⟨?_, ?_, ⟨e, he⟩⟩
  · rw [fetchData, if_neg hs, he]
  · rw [fetchData, if_neg hs, he]
    rfl

/-- Witness for claim C1: a concrete non-sentinel symbol and a transport
failure of the first lookup. -/
theorem fetch_failure_falls_back_witness :
    ("AAPL" ≠ "VNI" ∧
      fetchFailed ⟨NetOutcome.transportError, NetOutcome.transportError⟩ = true) ∧
    C1Prop "AAPL" 4 0 ⟨NetOutcome.transportError, NetOutcome.transportError⟩ :=
  ⟨⟨by decide, by decide⟩,
    fetch_failure_falls_back "AAPL" 4 0 _ (by decide) (by decide)⟩

/-! ### Claim C2: stale results are not discarded -/

/-- The aggregates answer resolving an earlier fetch for "AAPL". -/
def netA : Net := { details := .ok ⟨none⟩, aggs := .ok [⟨10, 0⟩] }

/-- The aggregates answer resolving a later fetch for "MSFT". -/
def netB : Net := { details := .ok ⟨none⟩, aggs := .ok [⟨20, 0⟩] }

/-- Claim C2 fails on the code: the effect has no generation tag or cleanup,
so when the superseded fetch (for "AAPL", issued first) resolves after the
newer fetch (for "MSFT"), its stale result overwrites the state already
reflecting the newer parameters, and the final state differs from the
newest request's result. -/
theorem stale_fetch_overwrites :
    resolveAll initialState
        [fetchData "MSFT" 4 0 netB, fetchData "AAPL" 4 0 netA] =
      fetchData "AAPL" 4 0 netA ∧
    fetchData "AAPL" 4 0 netA ≠ fetchData "MSFT" 4 0 netB := by
  exact ⟨rfl, by decide⟩

/-! ### Claim C3: the sentinel symbol -/

/-- Claim C3 (amended): a fetch for the sentinel symbol "VNI" touches no
network (the result is independent of every network outcome) and produces
exactly the demonstration state of the active window variant — the variant
keyed by whether the window equals the long default 4 — including its
summary statistics; the component produces no company name or logo. -/
theorem sentinel_fetch (activeWeeks today : ℤ) (net net2 : Net) :
    fetchData "VNI" activeWeeks today net = fallbackState activeWeeks today ∧
    fetchData "VNI" activeWeeks today net = fetchData "VNI" activeWeeks today net2 ∧
    (fetchData "VNI" activeWeeks today net).closingPrices =
      (if activeWeeks = 4 then fallbackClosingPrices4 else fallbackClosingPrices2) ∧
    (fetchData "VNI" activeWeeks today net).latestClose =
      some (if activeWeeks = 4 then 173.2 else 185.06) ∧
    rangeChange (fetchData "VNI" activeWeeks today net).closingPrices =
      some (if activeWeeks = 4 then 173.2 - 120 else 185.06 - 141) ∧
    changePercent (fetchData "VNI" activeWeeks today net).closingPrices =
      some (if activeWeeks = 4 then (173.2 - 120) / 120 * 100
            else (185.06 - 141) / 141 * 100) ∧
    renderedLogo (fetchData "VNI" activeWeeks today net) = none := by
  have hsent : ∀ m : Net, fetchData "VNI" activeWeeks today m =
      sentinelState activeWeeks today := fun m => rfl
  refine ⟨hsent net, (hsent net).trans (hsent net2).symm, ?_, ?_, ?_, ?_, rfl⟩
  all_goals rw [hsent net]
  all_goals by_cases h : activeWeeks = 4
  all_goals simp only [sentinelState, fallbackPricesFor, if_pos, if_neg, h,
    if_true, if_false, reduceIte]
  all_goals simp [fallbackClosingPrices4, fallbackClosingPrices2, rangeChange,
    changePercent]

/-- Counterexample to claim C3 as stated: at the sentinel symbol with the
long default window, the resulting state carries no logo at all — the
claimed "fixed demonstration company name and logo" does not exist (the
component never reads its `logo` attribute and renders no logo element). -/
theorem sentinel_no_logo :
    ¬ ∃ l, renderedLogo
        (fetchData "VNI" 4 0 ⟨NetOutcome.transportError, NetOutcome.transportError⟩) =
      some l := by
  rintro ⟨l, h⟩
  simp [renderedLogo] at h

/-! ### Claim C8: the lookback window is not clamped -/

/-- Claim C8 fails on the code: nothing clamps the weeks input to 104 — for
the input 200 the base window is 200 and the requested date range spans
1400 calendar days, more than the documented maximum of 104 weeks. -/
theorem weeks_not_clamped :
    baseWeeks 200 = 200 ∧
    lookbackDaysUsed 0 (baseWeeks 200) = 1400 ∧
    104 * 7 < lookbackDaysUsed 0 (baseWeeks 200) := by
  decide

/-! ### Claim C9: no logo is ever resolved -/

/-- Claim C9 fails on the code: even for a successful non-sentinel fetch
with a metadata-provided logo and an explicit override supplied, no logo is
produced — the `logo` attribute is never destructured and the details body
is discarded, so the documented precedence chain does not exist. -/
theorem logo_never_resolved :
    resolvedLogo "https://example.com/logo.png"
        ⟨NetOutcome.ok ⟨some "https://img.example/meta.png"⟩,
         NetOutcome.ok [⟨10, 0⟩]⟩ = none ∧
    renderedLogo (fetchData "AAPL" 4 0
        ⟨NetOutcome.ok ⟨some "https://img.example/meta.png"⟩,
         NetOutcome.ok [⟨10, 0⟩]⟩) = none := by
  exact ⟨rfl, rfl⟩

/-! ### Claim C10: the click toggle -/

/-- Claim C10: clicking the chart toggles the active window between the
base value (`weeks || 4`) and the fixed alternate (`4` when the base is 2,
else `2`); the two differ, every click changes the active window (and the
effect keyed on the active window refetches), and after any number of
clicks starting from the base the window is still one of the two values. -/
theorem click_toggle_invariant (weeks : ℤ) (n : ℕ) :
    baseWeeks 0 = 4 ∧
    toggleWeeks weeks = (if baseWeeks weeks = 2 then 4 else 2) ∧
    baseWeeks weeks ≠ toggleWeeks weeks ∧
    clickWeeks weeks (baseWeeks weeks) = toggleWeeks weeks ∧
    clickWeeks weeks (toggleWeeks weeks) = baseWeeks weeks ∧
    clickWeeks weeks (baseWeeks weeks) ≠ baseWeeks weeks ∧
    clickWeeks weeks (toggleWeeks weeks) ≠ toggleWeeks weeks ∧
    ((clickWeeks weeks)^[n] (baseWeeks weeks) = baseWeeks weeks ∨
      (clickWeeks weeks)^[n] (baseWeeks weeks) = toggleWeeks weeks) := by
  have hne : baseWeeks weeks ≠ toggleWeeks weeks := by
    by_cases h : baseWeeks weeks = 2
    · rw [toggleWeeks, if_pos h, h]; decide
    · rw [toggleWeeks, if_neg h]; exact h
  have hclickb : clickWeeks weeks (baseWeeks weeks) = toggleWeeks weeks := by
    rw [clickWeeks, if_pos rfl]
  have hclickt : clickWeeks weeks (toggleWeeks weeks) = baseWeeks weeks := by
    rw [clickWeeks, if_neg (Ne.symm hne)]
  have hiter : (clickWeeks weeks)^[n] (baseWeeks weeks) = baseWeeks weeks ∨
      (clickWeeks weeks)^[n] (baseWeeks weeks) = toggleWeeks weeks := by
    induction n with
    | zero => exact Or.inl rfl
    | succ m ih =>
      rw [Function.iterate_succ_apply']
      rcases ih with h | h
      · rw [h, hclickb]; exact Or.inr rfl
      · rw [h, hclickt]; exact Or.inl rfl
  exact ⟨rfl, rfl, hne, hclickb, hclickt,
    by rw [hclickb]; exact Ne.symm hne,
    by rw [hclickt]; exact hne, hiter⟩


/-! ### Claim C4: the geometry transform -/

/-- Property of claim C4 for one series: the min/max really are the extrema
of all prices, point `i` sits at
`(i * (canvasWidth/(n-1)), topPadding + innerHeight - ((p_i - minP)/range) * innerHeight)`
with the claimed substitutions spelled out, and the line path is the
move-to followed by one cubic per consecutive pair whose two control points
share the horizontal midpoint and carry the endpoints' own heights. -/
def C4Prop (prices : List ℚ) : Prop :=
  (minPrice prices ∈ prices ∧ maxPrice prices ∈ prices ∧
    ∀ p ∈ prices, minPrice prices ≤ p ∧ p ≤ maxPrice prices) ∧
  (∀ i, i < prices.length →
    (chartPoints prices)[i]? =
      some ((i : ℚ) * (graphBaseWidth / ((prices.length : ℚ) - 1)),
        graphTopPadding + (graphBaseHeight - graphBaselineInset - graphTopPadding) -
          ((prices.getD i 0 - minPrice prices) /
              (if maxPrice prices - minPrice prices = 0 then 1
               else maxPrice prices - minPrice prices)) *
            (graphBaseHeight - graphBaselineInset - graphTopPadding))) ∧
  linePathCmds prices =
    PathCmd.moveTo ((chartPoints prices).headD (0, 0)).1
        ((chartPoints prices).headD (0, 0)).2 ::
      ((chartPoints prices).zip (chartPoints prices).tail).map
        (fun pq =>
          PathCmd.curveTo ((pq.1.1 + pq.2.1) / 2) pq.1.2
            ((pq.1.1 + pq.2.1) / 2) pq.2.2 pq.2.1 pq.2.2)

/-- Claim C4: for every series of length at least 2 the transform places
each point at the claimed coordinates and emits the claimed midpoint-control
cubic curve. -/
theorem geometry_transform (prices : List ℚ) (h : 2 ≤ prices.length) :
    C4Prop prices := by
  have hne : prices ≠ [] := by
    intro he
    rw [he] at h
    exact absurd h (by decide)
  refine ⟨⟨minPrice_mem prices hne, maxPrice_mem prices hne,
    fun p hp => ⟨minPrice_le prices p hp, le_maxPrice prices p hp⟩⟩, ?_, ?_⟩
  · intro i hi
    rw [chartPoints, List.getElem?_map, List.getElem?_range hi]
    rfl
  · rw [linePathCmds, if_neg (by omega), segCmds]

/-- Witness for claim C4 at the two-point series `[1, 2]`. -/
theorem geometry_transform_witness :
    2 ≤ ([1, 2] : List ℚ).length ∧ C4Prop [1, 2] :=
  ⟨by decide, geometry_transform [1, 2] (by decide)⟩

/-! ### Claim C5: path strings -/

/-- Property of claim C5 for a chartable series: both serialized paths are
non-empty and begin with a move-to referencing the first projected point —
the line path at `(x0, y0)`, the area path at `x0` on the canvas baseline,
immediately followed by the line-to up to `(x0, y0)`. -/
def C5Prop (prices : List ℚ) : Prop :=
  generateSvgPath prices ≠ "" ∧
  generateSvgAreaPath prices ≠ "" ∧
  (∃ r, generateSvgPath prices =
    "M " ++ toString ((chartPoints prices).headD (0, 0)).1 ++ "," ++
      toString ((chartPoints prices).headD (0, 0)).2 ++ r) ∧
  (∃ r, generateSvgAreaPath prices =
    "M " ++ toString ((chartPoints prices).headD (0, 0)).1 ++ "," ++
      toString graphBaseHeight ++ " " ++ "L " ++
      toString ((chartPoints prices).headD (0, 0)).1 ++ "," ++
      toString ((chartPoints prices).headD (0, 0)).2 ++ r)

/-- Both paths of a too-short series are the empty string. -/
def C5PropShort (prices : List ℚ) : Prop :=
  generateSvgPath prices = "" ∧ generateSvgAreaPath prices = ""

lemma append_ne_empty_left (a b : String) (h : a.data ≠ []) : a ++ b ≠ "" := by
  intro he
  have h2 : (a ++ b).data = ("" : String).data := congrArg String.data he
  rw [String.data_append] at h2
  exact h (List.append_eq_nil.mp h2).1

lemma segCmds_ne_nil (prices : List ℚ) (h : 2 ≤ prices.length) :
    segCmds (chartPoints prices) ≠ [] := by
  apply List.ne_nil_of_length_pos
  rw [segCmds, List.length_map, List.length_zip, List.length_tail,
    chartPoints_length]
  omega

/-- Claim C5: for every series of length at least 2 both paths are
non-empty and begin with the claimed move-to; for shorter series both are
empty. -/
theorem svg_path_structure (prices : List ℚ) :
    (2 ≤ prices.length → C5Prop prices) ∧
    (prices.length < 2 → C5PropShort prices) := by
  constructor
  · intro h
    obtain ⟨s, ss, hss⟩ := List.exists_cons_of_ne_nil (segCmds_ne_nil prices h)
    have hline : linePathCmds prices =
        PathCmd.moveTo ((chartPoints prices).headD (0, 0)).1
            ((chartPoints prices).headD (0, 0)).2 :: s :: ss := by
      rw [linePathCmds, if_neg (by omega), hss]
    have harea : areaPathCmds prices =
        PathCmd.moveTo ((chartPoints prices).headD (0, 0)).1 graphBaseHeight ::
          PathCmd.lineTo ((chartPoints prices).headD (0, 0)).1
              ((chartPoints prices).headD (0, 0)).2 ::
          s :: (ss ++
            [PathCmd.lineTo ((chartPoints prices).getLastD (0, 0)).1 graphBaseHeight,
             PathCmd.closePath]) := by
      rw [areaPathCmds, if_neg (by omega), hss, List.cons_append]
    refine ⟨?_, ?_, ?_, ?_⟩
    · rw [generateSvgPath, hline, renderPath, renderCmd]
      apply append_ne_empty_left
      simp [String.data_append]
    · rw [generateSvgAreaPath, harea, renderPath, renderCmd]
      apply append_ne_empty_left
      simp [String.data_append]
    · refine ⟨" " ++ renderPath (s :: ss), ?_⟩
      rw [generateSvgPath, hline, renderPath, renderCmd]
      simp only [String.append_assoc]
    · refine ⟨" " ++ renderPath (s :: (ss ++
        [PathCmd.lineTo ((chartPoints prices).getLastD (0, 0)).1 graphBaseHeight,
         PathCmd.closePath])), ?_⟩
      rw [generateSvgAreaPath, harea, renderPath, renderPath, renderCmd, renderCmd]
      simp only [String.append_assoc]
  · intro h
    constructor
    · rw [generateSvgPath, linePathCmds, if_pos h, renderPath]
    · rw [generateSvgAreaPath, areaPathCmds, if_pos h, renderPath]

/-- Witness for claim C5: the two-point series `[1, 2]` and the empty
series. -/
theorem svg_path_structure_witness :
    (2 ≤ ([1, 2] : List ℚ).length ∧ C5Prop [1, 2]) ∧
    (([] : List ℚ).length < 2 ∧ C5PropShort []) :=
  ⟨⟨by decide, (svg_path_structure [1, 2]).1 (by decide)⟩,
   ⟨by decide, (svg_path_structure []).2 (by decide)⟩⟩


/-! ### Claim C6: hover lookup -/

lemma getGraphPoints_length (prices : List ℚ) (dates : List ℤ)
    (h : 2 ≤ prices.length) :
    (getGraphPoints prices dates).length = prices.length := by
  rw [getGraphPoints, if_neg (by omega)]
  simp

lemma floor_half : (⌊(1 / 2 : ℚ)⌋ : ℤ) = 0 := by
  rw [Int.floor_eq_iff]
  norm_num

lemma jsRound_intCast (k : ℤ) : jsRound (k : ℚ) = k := by
  rw [jsRound, Int.floor_int_add, floor_half, add_zero]

lemma hoverRawIndex_lt (n : ℕ) (rectWidth x : ℚ) (h : 1 ≤ n) :
    hoverRawIndex n rectWidth x < n := by
  rw [hoverRawIndex]
  omega

lemma hoverRawIndex_zero (n : ℕ) (rectWidth : ℚ) (h : 1 ≤ n) :
    hoverRawIndex n rectWidth 0 = 0 := by
  rw [hoverRawIndex, zero_div, zero_mul, zero_div]
  rw [show jsRound 0 = 0 from jsRound_intCast 0]
  omega

lemma hoverRawIndex_right (n : ℕ) (rectWidth : ℚ) (h : 2 ≤ n)
    (hw : rectWidth ≠ 0) :
    hoverRawIndex n rectWidth rectWidth = n - 1 := by
  have hc : ((n : ℚ) - 1) ≠ 0 := by
    have : (2 : ℚ) ≤ (n : ℚ) := by exact_mod_cast h
    intro he
    nlinarith
  have hdiv : rectWidth / rectWidth * graphBaseWidth /
      (graphBaseWidth / ((n : ℚ) - 1)) = ((n : ℚ) - 1) := by
    rw [div_self hw, one_mul, div_div_eq_mul_div, mul_comm, mul_div_assoc,
      div_self (by rw [graphBaseWidth]; norm_num), mul_one]
  have hcast : ((n : ℚ) - 1) = (((n : ℤ) - 1 : ℤ) : ℚ) := by push_cast; ring
  rw [hoverRawIndex, hdiv, hcast, jsRound_intCast]
  omega

/-- Property of claim C6 for one chartable configuration: every offset,
inside or outside the rendered width, yields a point at an in-bounds index;
offset 0 yields index 0 and the full-width offset yields index
`n - 1`. -/
def C6Prop (prices : List ℚ) (dates : List ℤ) (rectWidth : ℚ) : Prop :=
  (∀ x : ℚ, ∃ pt, onMouseMoveIndex prices dates rectWidth x =
      some (hoverRawIndex prices.length rectWidth x, pt) ∧
      hoverRawIndex prices.length rectWidth x < prices.length) ∧
  (∃ pt, onMouseMoveIndex prices dates rectWidth 0 = some (0, pt)) ∧
  (∃ pt, onMouseMoveIndex prices dates rectWidth rectWidth =
      some (prices.length - 1, pt))

/-- Claim C6: for every series of length at least 2 and positive rendered
width, the hover lookup scales, rounds and clamps into `[0, n-1]`; offset 0
maps to index 0, the rightmost offset to index `n-1`, and every offset —
also outside `[0, width]` — produces a valid `PricePoint`. -/
theorem hover_lookup (prices : List ℚ) (dates : List ℤ) (rectWidth : ℚ)
    (h : 2 ≤ prices.length) (hw : 0 < rectWidth) :
    C6Prop prices dates rectWidth := by
  have hlen := getGraphPoints_length prices dates h
  have hnz : ¬ (getGraphPoints prices dates).length = 0 := by omega
  have key : ∀ x : ℚ, ∃ pt,
      onMouseMoveIndex prices dates rectWidth x =
        some (hoverRawIndex prices.length rectWidth x, pt) ∧
      hoverRawIndex prices.length rectWidth x < prices.length := by
    intro x
    have hidx : hoverRawIndex prices.length rectWidth x <
        (getGraphPoints prices dates).length := by
      rw [hlen]
      exact hoverRawIndex_lt _ _ _ (by omega)
    have hsome := List.getElem?_eq_getElem hidx
    refine ⟨(getGraphPoints prices dates)[hoverRawIndex prices.length rectWidth x],
      ?_, hoverRawIndex_lt _ _ _ (by omega)⟩
    rw [onMouseMoveIndex]
    simp only [hlen, if_neg (show ¬ prices.length = 0 by omega), hsome]
  refine ⟨key, ?_, ?_⟩
  · obtain ⟨pt, hpt, _⟩ := key 0
    rw [hoverRawIndex_zero prices.length rectWidth (by omega)] at hpt
    exact ⟨pt, hpt⟩
  · obtain ⟨pt, hpt, _⟩ := key rectWidth
    rw [hoverRawIndex_right prices.length rectWidth h (ne_of_gt hw)] at hpt
    exact ⟨pt, hpt⟩

/-- Witness for claim C6: series `[1, 2]`, dates `[0, 1]`, rendered width
1. -/
theorem hover_lookup_witness :
    (2 ≤ ([1, 2] : List ℚ).length ∧ (0 : ℚ) < 1) ∧
    C6Prop [1, 2] [0, 1] 1 :=
  ⟨⟨by decide, by norm_num⟩, hover_lookup [1, 2] [0, 1] 1 (by decide) (by norm_num)⟩

/-! ### Claim C7: derived statistics -/

/-- Property of claim C7 for a series with at least two points and a
caller-supplied color: `rangeChange` is last minus first, `changePercent`
is the guarded percentage, a non-negative change selects the up indicator
and the green color while a negative one selects the down indicator and
red, and a non-empty caller-supplied color overrides the computed one. -/
def C7Prop (prices : List ℚ) (c : String) : Prop :=
  rangeChange prices = some (prices.getLastD 0 - prices.headD 0) ∧
  changePercent prices =
    some ((prices.getLastD 0 - prices.headD 0) /
      (if prices.headD 0 = 0 then 1 else prices.headD 0) * 100) ∧
  (0 ≤ prices.getLastD 0 - prices.headD 0 →
    indicatorPoints (prices.getLastD 0 - prices.headD 0) = "5,0 10,10 0,10" ∧
    changeColor prices = "#6CD28D") ∧
  (prices.getLastD 0 - prices.headD 0 < 0 →
    indicatorPoints (prices.getLastD 0 - prices.headD 0) = "0,0 10,0 5,10" ∧
    changeColor prices = "#ef4444") ∧
  (c ≠ "" → graphColor c prices = c)

/-- Claim C7: for at least two points the derived statistics take the
claimed closed forms, the sign of the change selects indicator and color
and a caller-supplied color overrides; for fewer than two points both
statistics are `null`. -/
theorem derived_stats (prices : List ℚ) (c : String) :
    (2 ≤ prices.length → C7Prop prices c) ∧
    (prices.length < 2 →
      rangeChange prices = none ∧ changePercent prices = none) := by
  constructor
  · intro h
    have h1 : 1 < prices.length := by omega
    have hrange : rangeChange prices =
        some (prices.getLastD 0 - prices.headD 0) := by
      rw [rangeChange, if_pos h1]
    refine ⟨hrange, ?_, ?_, ?_, ?_⟩
    · rw [changePercent, hrange]
      exact if_pos h1
    · intro hge
      refine ⟨?_, ?_⟩
      · rw [indicatorPoints, if_pos hge]
      · rw [changeColor, hrange]
        exact if_pos hge
    · intro hlt
      refine ⟨?_, ?_⟩
      · rw [indicatorPoints, if_neg (not_le.mpr hlt)]
      · rw [changeColor, hrange]
        exact if_neg (not_le.mpr hlt)
    · intro hc
      rw [graphColor, if_neg hc]
  · intro h
    have h1 : ¬ 1 < prices.length := by omega
    have hrange : rangeChange prices = none := by rw [rangeChange, if_neg h1]
    exact ⟨hrange, by rw [changePercent, hrange]⟩

/-- Witness for claim C7: the rising series `[3, 1]` reversed — concretely
`[3, 1]` falls, `[1, 3]` rises — instantiated at `[1, 3]` with the override
color "blue", and the empty series for the short case. -/
theorem derived_stats_witness :
    (2 ≤ ([1, 3] : List ℚ).length ∧ C7Prop [1, 3] "blue") ∧
    (([] : List ℚ).length < 2 ∧
      rangeChange ([] : List ℚ) = none ∧ changePercent ([] : List ℚ) = none) :=
  ⟨⟨by decide, (derived_stats [1, 3] "blue").1 (by decide)⟩,
   ⟨by decide, (derived_stats [] "blue").2 (by decide)⟩⟩


end StockTicker
